import Mathlib

/-
  Verification of the data-access layer in `src/backend/src/dal.py`
  (FullStackSVCILBOWEB backend).

  The store is modelled as two in-memory collections of typed documents
  ("kingdoms" and "clans"; members are embedded arrays inside clan
  documents), and each DAL method as a pure function from a `Store` (plus
  the values the real code obtains from its environment: fresh ObjectIds,
  `datetime.now()` readings) to a new `Store` and/or a result.

  Python runtime faults (NameError from unbound names, pydantic rejecting
  assignment of an undeclared field, AttributeError from a missing cursor
  method, the server rejecting an empty `$set`, `datetime.fromisoformat`
  on a non-string) are modelled with `Except PyErr`: a `.error` value is a
  raised exception propagating out of the DAL call.  Store writes that the
  real code completes before the raise are still reflected in the returned
  `Store`, because the database round-trip has already happened when the
  fault occurs.
-/

namespace SVCIL

/-- Python exceptions that the faulty paths of `dal.py` can raise.
`pydanticNoField f` is the error pydantic raises when code assigns an
attribute `f` that the model does not declare ("object has no field"). -/
inductive PyErr where
  | nameError (n : String)
  | typeError
  | valueError
  | keyError (k : String)
  | attributeError (n : String)
  | pydanticNoField (f : String)
  | operationFailure
  deriving Repr, DecidableEq

/-- A Python `datetime` value, identified by its canonical ISO rendering. -/
structure PyDatetime where
  iso : String
  deriving Repr, DecidableEq

/-- A timestamp value as stored in a document: either a real `datetime`
object (what `add_armymember` / `update_armymember` write), or a string. -/
inductive TimeVal where
  | dtime (d : PyDatetime)
  | text (s : String)
  deriving Repr, DecidableEq

/-- Reads the two-digit decimal number `a b`. -/
def twoDigits (a b : Char) : Nat :=
  (a.toNat - 48) * 10 + (b.toNat - 48)

/-- Recogniser for the canonical 19-character `YYYY-MM-DDTHH:MM:SS` form.
`datetime.fromisoformat` accepts a superset of string formats; the model
covers this canonical form (the only shape exercised here), and rejecting
more strings than Python does cannot turn a raise into a success. -/
def validIso19 (s : String) : Bool :=
  match s.toList with
  | [y1, y2, y3, y4, '-', o1, o2, '-', d1, d2, 'T', h1, h2, ':', n1, n2, ':', c1, c2] =>
    ([y1, y2, y3, y4, o1, o2, d1, d2, h1, h2, n1, n2, c1, c2].all Char.isDigit)
      && decide (1 ≤ twoDigits o1 o2) && decide (twoDigits o1 o2 ≤ 12)
      && decide (1 ≤ twoDigits d1 d2) && decide (twoDigits d1 d2 ≤ 31)
      && decide (twoDigits h1 h2 ≤ 23)
      && decide (twoDigits n1 n2 ≤ 59) && decide (twoDigits c1 c2 ≤ 59)
  | _ => false

/-- `datetime.fromisoformat`: raises `TypeError` when the argument is not a
string (in particular on a `datetime` object read back from the store),
`ValueError` when the string does not parse. -/
def fromisoformat : TimeVal → Except PyErr PyDatetime
  | .dtime _ => .error .typeError
  | .text s => if validIso19 s then .ok ⟨s⟩ else .error .valueError

/-- A document of the `kingdoms` collection (dal.py stores only `name`
beside `_id`; the `{"name": 1}` projection used by `list_kingdoms` returns
exactly these two keys). -/
structure KingdomDoc where
  _id : String
  name : String
  deriving Repr, DecidableEq

/-- An embedded member document inside a clan's `armyMembers` array,
with the exact keys `add_armymember` writes. -/
structure MemberDoc where
  _id : String
  nickname : String
  email : String
  password : String
  rank : String
  memberOf : List String
  status : String
  registrationDate : TimeVal
  lastLogin : TimeVal
  description : String
  phone : String
  imageAccess : Bool
  infoAccess : Bool
  manageAccess : Bool
  mediaAccess : Bool
  deriving Repr, DecidableEq

/-- A document of the `clans` collection, with the keys `create_clan`
writes. -/
structure ClanDoc where
  _id : String
  kingdomId : String
  clanName : String
  description : String
  armyMembers : List MemberDoc
  deriving Repr, DecidableEq

/-- The database state: the two collections held by `KingdomDAL`. -/
structure Store where
  kingdoms : List KingdomDoc
  clans : List ClanDoc
  deriving Repr, DecidableEq

/-- The pydantic `KingdomSummary` model (fields `id`, `name`,
`clan_count`). -/
structure KingdomSummary where
  id : String
  name : String
  clan_count : Nat
  deriving Repr, DecidableEq

/-- `KingdomSummary.from_doc`.  The body is
`KingdomSummary(id=str(doc["_id"]), name=doc["name"], clanCount=doc[clanCount])`:
evaluating `doc[clanCount]` reads the unbound Python name `clanCount` and
raises `NameError` before anything else can happen (the projection also
excludes any such key, and the keyword `clanCount` does not match the model
field `clan_count`, so every reading of this line faults). -/
def KingdomSummary.from_doc (_doc : KingdomDoc) : Except PyErr KingdomSummary :=
  .error (.nameError "clanCount")

/-- The pydantic `Clan` model (fields `id`, `name`, `description` only —
`armyMembers` is NOT a declared field). -/
structure Clan where
  id : String
  name : String
  description : String
  deriving Repr, DecidableEq

/-- `Clan.from_doc`: reads `_id`, `clanName` and (defaulted) `description`. -/
def Clan.from_doc (doc : ClanDoc) : Clan :=
  { id := doc._id, name := doc.clanName, description := doc.description }

/-- The pydantic `Member` model of dal.py (the DAL methods refer to it by
the stale name `ArmyMember`, which no longer exists). -/
structure Member where
  id : String
  nickname : String
  email : String
  password : String
  rank : String
  member_of : List String
  status : String
  registration_date : PyDatetime
  last_login : PyDatetime
  description : String
  phone : String
  image_access : Bool
  info_access : Bool
  manage_access : Bool
  media_access : Bool
  deriving Repr, DecidableEq

/-- `Member.from_doc`: field-by-field copy with defaults;
`member_of=list(filter(None, doc.get("memberOf", [])))` drops every falsy
(empty-string) entry; the two timestamps go through
`datetime.fromisoformat`, which raises on the `datetime`-valued timestamps
that `add_armymember` itself stores.  Keyword arguments are evaluated in
source order, so a `registrationDate` failure raises before `lastLogin` is
looked at. -/
def Member.from_doc (doc : MemberDoc) : Except PyErr Member :=
  match fromisoformat doc.registrationDate with
  | .error e => .error e
  | .ok rd =>
    match fromisoformat doc.lastLogin with
    | .error e => .error e
    | .ok ll =>
      .ok { id := doc._id
            nickname := doc.nickname
            email := doc.email
            password := doc.password
            rank := doc.rank
            member_of := doc.memberOf.filter (fun s => s ≠ "")
            status := doc.status
            registration_date := rd
            last_login := ll
            description := doc.description
            phone := doc.phone
            image_access := doc.imageAccess
            info_access := doc.infoAccess
            manage_access := doc.manageAccess
            media_access := doc.mediaAccess }

/-- The dictionary `get_clan` / `list_clans` / `update_clan` would return
for a clan: `Clan.dict()` with the (undeclared) `armyMembers` entry. -/
structure ClanDict where
  id : String
  name : String
  description : String
  armyMembers : List Member
  deriving Repr, DecidableEq

/-- The kingdom document `get_kingdom` returns, after `doc["clans"]` has
been attached. -/
structure KingdomOut where
  _id : String
  name : String
  clans : List ClanDict
  deriving Repr, DecidableEq

/-- `update_one` on the clans collection: MongoDB updates the FIRST
document matching the filter, applies `f`, and reports `modified_count = 1`
exactly when the document actually changed.  Returns the new collection
and the `modified_count`. -/
def updateOneClan (p : ClanDoc → Bool) (f : ClanDoc → ClanDoc) :
    List ClanDoc → List ClanDoc × Nat
  | [] => ([], 0)
  | c :: cs =>
    if p c then
      (f c :: cs, if f c = c then 0 else 1)
    else
      let r := updateOneClan p f cs
      (c :: r.1, r.2)

/-- `find_one_and_update` with `ReturnDocument.AFTER`: update the first
matching document and return it post-update (or `none` when no document
matched). -/
def findOneAndUpdateClan (p : ClanDoc → Bool) (f : ClanDoc → ClanDoc) :
    List ClanDoc → List ClanDoc × Option ClanDoc
  | [] => ([], none)
  | c :: cs =>
    if p c then
      (f c :: cs, some (f c))
    else
      let r := findOneAndUpdateClan p f cs
      (c :: r.1, r.2)

/-- `delete_one` on the kingdoms collection: remove the first matching
document; returns the new collection and the `deleted_count`. -/
def deleteOneKingdom (p : KingdomDoc → Bool) :
    List KingdomDoc → List KingdomDoc × Nat
  | [] => ([], 0)
  | k :: ks =>
    if p k then
      (ks, 1)
    else
      let r := deleteOneKingdom p ks
      (k :: r.1, r.2)

namespace KingdomDAL

/-- The shared hydration step of `get_clan` / `list_clans` / `update_clan`:
after `Clan.from_doc(doc)` succeeds, the code runs
`clan.armyMembers = [ArmyMember.from_doc(m).dict() for m in doc.get("armyMembers", [])]`.
With a nonempty array the comprehension evaluates the undefined name
`ArmyMember` and raises `NameError`; with an empty array the comprehension
yields `[]` but the assignment itself is rejected by pydantic, because
`armyMembers` is not a declared field of the `Clan` model.  Either way the
hydration raises, so no `ClanDict` is ever produced. -/
def clanToDict (doc : ClanDoc) : Except PyErr ClanDict :=
  let _clan := Clan.from_doc doc
  match doc.armyMembers with
  | [] => .error (.pydanticNoField "armyMembers")
  | _ :: _ => .error (.nameError "ArmyMember")

/-- `KingdomDAL.list_clans(kingdom_id)`: iterate the clans whose
`kingdomId` matches, hydrating each (the hydration raises on the first
clan, so the call succeeds only when the kingdom has no clans). -/
def list_clans (s : Store) (kingdom_id : String) : Except PyErr (List ClanDict) :=
  (s.clans.filter (fun c => c.kingdomId == kingdom_id)).mapM clanToDict

/-- `KingdomDAL.list_kingdoms()`: iterate all kingdom documents (projected
to `_id` and `name`), build a `KingdomSummary` for each, then overwrite its
`clan_count` with the number of clans fetched separately.
`KingdomSummary.from_doc` raises on the first document. -/
def list_kingdoms (s : Store) : Except PyErr (List KingdomSummary) :=
  s.kingdoms.mapM (fun doc =>
    match KingdomSummary.from_doc doc with
    | .error e => .error e
    | .ok k =>
      match list_clans s k.id with
      | .error e => .error e
      | .ok cs => .ok { k with clan_count := cs.length })

/-- `KingdomDAL.create_kingdom(name)`: insert `{"name": name}`; the store
generates the ObjectId (`oid` models `result.inserted_id`). -/
def create_kingdom (s : Store) (oid : String) (name : String) : Store × String :=
  ({ s with kingdoms := s.kingdoms ++ [{ _id := oid, name := name }] }, oid)

/-- `KingdomDAL.get_kingdom(id)`: `find_one` on kingdoms; `None` (absence)
when no document matches; otherwise fetch the kingdom's clans via
`list_clans` and attach them as `doc["clans"]`.  When the kingdom has at
least one clan, `list_clans` raises and the exception propagates; with no
clans both post-processing loops run over an empty list and the document is
returned with `clans = []`.  (Were `list_clans` ever to return a nonempty
list, the final `Clan.from_doc(clan)` over a model dictionary would raise
`KeyError("_id")`.) -/
def get_kingdom (s : Store) (id : String) : Except PyErr (Option KingdomOut) :=
  match s.kingdoms.find? (fun k => k._id == id) with
  | none => .ok none
  | some doc =>
    match list_clans s doc._id with
    | .error e => .error e
    | .ok cds =>
      match cds with
      | [] => .ok (some { _id := doc._id, name := doc.name, clans := [] })
      | _ :: _ => .error (.keyError "_id")

/-- `KingdomDAL.delete_kingdom(id)`: `delete_one` on the kingdoms
collection only; returns `deleted_count == 1`.  The clans collection is not
touched. -/
def delete_kingdom (s : Store) (id : String) : Store × Bool :=
  let r := deleteOneKingdom (fun k => k._id == id) s.kingdoms
  ({ s with kingdoms := r.1 }, r.2 == 1)

/-- `KingdomDAL.get_clan(id)`: `find_one` on clans; `None` when absent;
otherwise hydrate the document — which always raises (see `clanToDict`). -/
def get_clan (s : Store) (id : String) : Except PyErr (Option ClanDict) :=
  match s.clans.find? (fun c => c._id == id) with
  | none => .ok none
  | some doc =>
    match clanToDict doc with
    | .error e => .error e
    | .ok d => .ok (some d)

/-- `KingdomDAL.create_clan(kingdom_id, clan_name, description)`: insert a
clan document with an explicit fresh `_id` (`oid`), the owning kingdom id,
name, description and an empty `armyMembers` array; the insert is
acknowledged, after which `Clan.from_doc(await self.get_clan(...))` runs:
`get_clan` on the fresh (member-less) clan raises in hydration, so the
insert persists but the call raises instead of returning the clan.
(The unreachable success branches are kept faithful: `get_clan` returning
`None` would make `Clan.from_doc(None)` raise `TypeError`, and a returned
model dictionary lacks the `_id` key `Clan.from_doc` reads.) -/
def create_clan (s : Store) (oid kingdom_id clan_name description : String) :
    Store × Except PyErr (Option Clan) :=
  let doc : ClanDoc :=
    { _id := oid, kingdomId := kingdom_id, clanName := clan_name,
      description := description, armyMembers := [] }
  let s' : Store := { s with clans := s.clans ++ [doc] }
  (s',
   match get_clan s' oid with
   | .error e => .error e
   | .ok none => .error .typeError
   | .ok (some _) => .error (.keyError "_id"))

/-- `delete_one` on the clans collection: remove the first matching
document; returns the new collection and the `deleted_count`. -/
def deleteOneClan (p : ClanDoc → Bool) : List ClanDoc → List ClanDoc × Nat
  | [] => ([], 0)
  | c :: cs =>
    if p c then
      (cs, 1)
    else
      let r := deleteOneClan p cs
      (c :: r.1, r.2)

/-- `KingdomDAL.delete_clan(id)`: `delete_one` on the clans collection;
returns `deleted_count == 1`. -/
def delete_clan (s : Store) (id : String) : Store × Bool :=
  let r := deleteOneClan (fun c => c._id == id) s.clans
  ({ s with clans := r.1 }, r.2 == 1)

/-- `KingdomDAL.add_armymember(clan_id, nickname, email, password, rank)`:
build the new embedded member document (fresh `_id` = `oid`, `memberOf`
seeded with `str(clan_id)`, empty defaults, two separate `datetime.now()`
readings `now1`/`now2` stored as datetime objects), then `$push` it onto
the matching clan with `upsert=False`.  When no clan matched nothing is
modified and the function falls through to an implicit `None`; when the
push modified the clan, `return ArmyMember.from_doc(new_member)` evaluates
the undefined name `ArmyMember` and raises `NameError` (the member is
already persisted at that point). -/
def add_armymember (s : Store) (oid : String) (now1 now2 : PyDatetime)
    (clan_id nickname email password rank : String) :
    Store × Except PyErr (Option Member) :=
  let new_member : MemberDoc :=
    { _id := oid, nickname := nickname, email := email, password := password,
      rank := rank, memberOf := [clan_id], status := "",
      registrationDate := .dtime now1, lastLogin := .dtime now2,
      description := "", phone := "",
      imageAccess := false, infoAccess := false,
      manageAccess := false, mediaAccess := false }
  let r := updateOneClan (fun c => c._id == clan_id)
    (fun c => { c with armyMembers := c.armyMembers ++ [new_member] }) s.clans
  if r.2 != 0 then
    ({ s with clans := r.1 }, .error (.nameError "ArmyMember"))
  else
    ({ s with clans := r.1 }, .ok none)

/-- `KingdomDAL.remove_armymember(clan_id, member_id)`: `$pull` every
array element whose `_id` matches out of the first matching clan; returns
`modified_count > 0`. -/
def remove_armymember (s : Store) (clan_id member_id : String) : Store × Bool :=
  let r := updateOneClan (fun c => c._id == clan_id)
    (fun c => { c with armyMembers := c.armyMembers.filter (fun m => !(m._id == member_id)) })
    s.clans
  ({ s with clans := r.1 }, r.2 != 0)

/-- `KingdomDAL.get_armymember(clan_id, member_id)`: builds a `find` cursor
and then calls `cursor.aggregate(...)` — a method Motor cursors do not
have — so every call raises `AttributeError` before any document is read
(the `{"armyMembers.$[member]": 1}` projection would be rejected by the
server as well). -/
def get_armymember (_s : Store) (_clan_id _member_id : String) :
    Except PyErr (Option MemberDoc) :=
  .error (.attributeError "aggregate")

/-- The `$set` document of `update_armymember` applied to one clan: every
`armyMembers` element matching the `{"member._id": ObjectId(member_id)}`
array filter gets all 13 mutable fields overwritten (`_id` and `memberOf`
are not among them); the timestamps are stored as datetime objects. -/
def setArmyMemberFields (member_id nickname email password rank status : String)
    (registration_date last_login : PyDatetime) (description phone : String)
    (image_access info_access manage_access media_access : Bool)
    (c : ClanDoc) : ClanDoc :=
  { c with armyMembers := c.armyMembers.map (fun m =>
      if m._id == member_id then
        { m with
          nickname := nickname
          email := email
          password := password
          rank := rank
          status := status
          registrationDate := .dtime registration_date
          lastLogin := .dtime last_login
          description := description
          phone := phone
          imageAccess := image_access
          infoAccess := info_access
          manageAccess := manage_access
          mediaAccess := media_access }
      else m) }

/-- `KingdomDAL.update_armymember(clan_id, member_id, <13 fields>)`:
positional `$set` with an array filter (see `setArmyMemberFields`); when
`modified_count > 0` the code re-reads via `get_armymember`, which always
raises `AttributeError` (and even a successful read would then hit the
undefined name `ArmyMember`); when nothing was modified (clan absent, no
array element matched, or values identical) it falls through to `None`. -/
def update_armymember (s : Store) (clan_id member_id : String)
    (nickname email password rank status : String)
    (registration_date last_login : PyDatetime) (description phone : String)
    (image_access info_access manage_access media_access : Bool) :
    Store × Except PyErr (Option Member) :=
  let r := updateOneClan (fun c => c._id == clan_id)
    (setArmyMemberFields member_id nickname email password rank status
      registration_date last_login description phone
      image_access info_access manage_access media_access)
    s.clans
  if r.2 != 0 then
    ({ s with clans := r.1 },
     match get_armymember { s with clans := r.1 } clan_id member_id with
     | .error e => .error e
     | .ok _ => .error (.nameError "ArmyMember"))
  else
    ({ s with clans := r.1 }, .ok none)

/-- Python truthiness of the optional `name` argument of `update_clan`:
`if name:` is false for `None` and for the empty string. -/
def truthy : Option String → Bool
  | some s => s ≠ ""
  | none => false

/-- The `$set` document built by `update_clan` applied to one clan:
`clanName` only when the supplied name is truthy, `description` whenever a
description (empty string included) was supplied. -/
def setClanFields (name description : Option String) (c : ClanDoc) : ClanDoc :=
  { c with
    clanName := if truthy name then name.getD c.clanName else c.clanName
    description := if description.isSome then description.getD c.description else c.description }

/-- `KingdomDAL.update_clan(clan_id, name=None, description=None)`:
build `update_fields` with `clanName` only when `name` is truthy and
`description` whenever it is not `None`; then `find_one_and_update` with
`ReturnDocument.AFTER`.  When both conditions fail, `{"$set": {}}` is sent
and the server rejects the empty `$set` (`OperationFailure`), leaving the
store unchanged.  When no clan matched, the implicit `None` is returned.
When a clan was found and updated, the code then hydrates the returned
document exactly like `get_clan` does — and raises the same way, after the
store write has already happened. -/
def update_clan (s : Store) (clan_id : String) (name description : Option String) :
    Store × Except PyErr (Option ClanDict) :=
  if truthy name || description.isSome then
    let r := findOneAndUpdateClan (fun c => c._id == clan_id)
      (setClanFields name description) s.clans
    ({ s with clans := r.1 },
     match r.2 with
     | none => .ok none
     | some c' =>
       .error (match c'.armyMembers with
               | [] => .pydanticNoField "armyMembers"
               | _ :: _ => .nameError "ArmyMember"))
  else
    (s, .error .operationFailure)

end KingdomDAL

/-! ### Concrete store states used to evaluate the operations -/

/-- A store holding one kingdom and no clans. -/
def storeC1 : Store :=
  { kingdoms := [{ _id := "k1", name := "Westeros" }], clans := [] }

/-- A pre-existing embedded member, timestamps stored as ISO strings. -/
def memberDocC2 : MemberDoc :=
  { _id := "m1", nickname := "old-nick", email := "old@x", password := "old-pw",
    rank := "old-rank", memberOf := ["c1"], status := "old-status",
    registrationDate := .text "2024-01-01T00:00:00",
    lastLogin := .text "2024-01-02T00:00:00",
    description := "old-d", phone := "old-p",
    imageAccess := false, infoAccess := false,
    manageAccess := false, mediaAccess := false }

/-- A clan holding `memberDocC2`. -/
def clanC2 : ClanDoc :=
  { _id := "c1", kingdomId := "k1", clanName := "Stark", description := "dire",
    armyMembers := [memberDocC2] }

/-- A store holding `clanC2`. -/
def storeC2 : Store := { kingdoms := [], clans := [clanC2] }

/-- `memberDocC2` after `update_armymember` overwrote all 13 mutable
fields (identifier and `memberOf` untouched, timestamps now datetime
objects). -/
def memberDocC2upd : MemberDoc :=
  { _id := "m1", nickname := "new-nick", email := "new@x", password := "new-pw",
    rank := "new-rank", memberOf := ["c1"], status := "new-status",
    registrationDate := .dtime ⟨"2025-05-05T05:05:05"⟩,
    lastLogin := .dtime ⟨"2025-06-06T06:06:06"⟩,
    description := "new-d", phone := "new-p",
    imageAccess := true, infoAccess := true,
    manageAccess := true, mediaAccess := true }

/-- A clan with one member and a distinct clan besides it, for the
`update_clan` witness. -/
def clanC3 : ClanDoc :=
  { _id := "c1", kingdomId := "k1", clanName := "Stark", description := "dire",
    armyMembers := [] }

/-- Store for the `update_clan` witness. -/
def storeC3 : Store :=
  { kingdoms := [{ _id := "k1", name := "Westeros" }],
    clans := [{ _id := "c0", kingdomId := "k1", clanName := "Tully",
                description := "fish", armyMembers := [] }, clanC3] }

/-- An empty clan to push a member onto. -/
def clanC4 : ClanDoc :=
  { _id := "c1", kingdomId := "k1", clanName := "Stark", description := "",
    armyMembers := [] }

/-- A store holding `clanC4`. -/
def storeC4 : Store := { kingdoms := [], clans := [clanC4] }

/-- The member document `add_armymember` constructs in the C4 scenario:
fresh `_id`, supplied nickname/email/password/rank, `memberOf` seeded with
the clan id, both timestamps from `datetime.now()`, empty defaults. -/
def newMemberC4 : MemberDoc :=
  { _id := "m7", nickname := "jon", email := "jon@w.n", password := "ghost",
    rank := "lord-commander", memberOf := ["c1"], status := "",
    registrationDate := .dtime ⟨"2026-02-03T04:05:06"⟩,
    lastLogin := .dtime ⟨"2026-02-03T04:05:07"⟩,
    description := "", phone := "",
    imageAccess := false, infoAccess := false,
    manageAccess := false, mediaAccess := false }

/-- Store for the `remove_armymember` witness: one clan, one member. -/
def storeC5 : Store :=
  { kingdoms := [],
    clans := [{ _id := "c1", kingdomId := "k1", clanName := "Stark",
                description := "", armyMembers := [memberDocC2] }] }

/-- A kingdom with one dependent clan. -/
def storeC6 : Store :=
  { kingdoms := [{ _id := "k1", name := "Westeros" }],
    clans := [{ _id := "c1", kingdomId := "k1", clanName := "Stark",
                description := "", armyMembers := [] }] }

/-- One kingdom, no clans yet. -/
def storeC7 : Store :=
  { kingdoms := [{ _id := "k1", name := "Westeros" }], clans := [] }

/-- One kingdom owning one clan. -/
def storeC8 : Store :=
  { kingdoms := [{ _id := "k1", name := "Westeros" }],
    clans := [{ _id := "c1", kingdomId := "k1", clanName := "Stark",
                description := "", armyMembers := [] }] }

/-- A stored member document whose `memberOf` contains falsy (empty
string) entries and whose timestamps are parseable ISO strings. -/
def memberDocC9 : MemberDoc :=
  { _id := "m1", nickname := "sam", email := "", password := "", rank := "",
    memberOf := ["c1", "", "c2", ""], status := "",
    registrationDate := .text "2024-01-01T00:00:00",
    lastLogin := .text "2024-01-01T00:00:00",
    description := "", phone := "",
    imageAccess := false, infoAccess := false,
    manageAccess := false, mediaAccess := false }

/-- The `Member` value `Member.from_doc` produces for `memberDocC9`: the
falsy entries of `memberOf` are gone. -/
def memberC9 : Member :=
  { id := "m1", nickname := "sam", email := "", password := "", rank := "",
    member_of := ["c1", "c2"], status := "",
    registration_date := ⟨"2024-01-01T00:00:00"⟩,
    last_login := ⟨"2024-01-01T00:00:00"⟩,
    description := "", phone := "",
    image_access := false, info_access := false,
    manage_access := false, media_access := false }

/-- Store for the `add_armymember`-on-missing-clan witness: one clan whose
identifier differs from the one used in the call. -/
def storeC10 : Store :=
  { kingdoms := [],
    clans := [{ _id := "c1", kingdomId := "k1", clanName := "Stark",
                description := "", armyMembers := [] }] }

/-! ### Helper lemmas about the collection-update primitives -/

/-- `update_one` with a filter matching no document leaves the collection
unchanged and reports no modification. -/
theorem updateOneClan_none (p : ClanDoc → Bool) (f : ClanDoc → ClanDoc) :
    ∀ l : List ClanDoc, l.find? p = none → updateOneClan p f l = (l, 0)
  | [], _ => rfl
  | c :: cs, h => by
    have hc : ¬ (p c = true) := by
      intro hpc
      rw [List.find?_cons_of_pos _ hpc] at h
      exact Option.noConfusion h
    have hcs : cs.find? p = none := by
      rwa [List.find?_cons_of_neg _ hc] at h
    simp [updateOneClan, hc, updateOneClan_none p f cs hcs]

/-- `update_one` whose update leaves the first matching document equal to
itself leaves the collection unchanged and reports no modification. -/
theorem updateOneClan_fixed (p : ClanDoc → Bool) (f : ClanDoc → ClanDoc) :
    ∀ (l : List ClanDoc) (c : ClanDoc), l.find? p = some c → f c = c →
      updateOneClan p f l = (l, 0)
  | [], c, h, _ => by simp [List.find?] at h
  | d :: ds, c, h, hfc => by
    by_cases hd : p d = true
    · rw [List.find?_cons_of_pos _ hd] at h
      cases h
      simp [updateOneClan, hd, hfc]
    · rw [List.find?_cons_of_neg _ hd] at h
      simp [updateOneClan, hd, updateOneClan_fixed p f ds c h hfc]

/-- `find_one_and_update` on a collection whose first `p`-match is `c`
returns `f c`, and — provided `f` preserves the filter — the updated
collection's first `p`-match is `f c`. -/
theorem findOneAndUpdateClan_found (p : ClanDoc → Bool) (f : ClanDoc → ClanDoc) :
    ∀ (l : List ClanDoc) (c : ClanDoc), l.find? p = some c → p (f c) = true →
      (findOneAndUpdateClan p f l).2 = some (f c) ∧
      (findOneAndUpdateClan p f l).1.find? p = some (f c)
  | [], c, h, _ => by simp [List.find?] at h
  | d :: ds, c, h, hpf => by
    by_cases hd : p d = true
    · rw [List.find?_cons_of_pos _ hd] at h
      cases h
      refine ⟨by simp [findOneAndUpdateClan, hd], ?_⟩
      simp [findOneAndUpdateClan, hd, List.find?_cons_of_pos _ hpf]
    · rw [List.find?_cons_of_neg _ hd] at h
      have ih := findOneAndUpdateClan_found p f ds c h hpf
      refine ⟨by simp [findOneAndUpdateClan, hd, ih.1], ?_⟩
      simp [findOneAndUpdateClan, hd, List.find?_cons_of_neg _ hd, ih.2]

/-! ### The claims -/

/-- C1.  The claim says `list_kingdoms` returns one summary per Kingdom
document with `clan_count` equal to the number of its clans, and that a
fresh kingdom with no clans is listed with `clan_count == 0`.  In the code
`KingdomSummary.from_doc` evaluates the unbound name `clanCount`, so
`list_kingdoms` raises `NameError` for every store that holds at least one
kingdom; only the trivial empty listing ever succeeds. -/
theorem C1_list_kingdoms_raises_on_any_kingdom :
    KingdomDAL.list_kingdoms storeC1 = .error (.nameError "clanCount")
  ∧ KingdomDAL.list_kingdoms { kingdoms := [], clans := [] } = .ok [] := by
  constructor <;> rfl

/-- C2.  The positional `$set` of `update_armymember` does overwrite all
13 mutable fields of the matching array element, but the claimed
"returns the updated member obtained by re-reading it" never happens: the
re-read (`get_armymember`) calls `.aggregate` on a find cursor, a method
that does not exist, so the call raises `AttributeError` after the store
write. -/
theorem C2_update_armymember_sets_fields_but_reread_raises :
    KingdomDAL.update_armymember storeC2 "c1" "m1" "new-nick" "new@x" "new-pw"
        "new-rank" "new-status" ⟨"2025-05-05T05:05:05"⟩ ⟨"2025-06-06T06:06:06"⟩
        "new-d" "new-p" true true true true
      = ({ kingdoms := [], clans := [{ clanC2 with armyMembers := [memberDocC2upd] }] },
         .error (.attributeError "aggregate")) := by
  rfl

/-- C3.  For every existing clan, `update_clan` with an empty-string name
leaves the stored `clanName` unchanged (whatever description argument
accompanies it), while `update_clan` with an empty-string description sets
the stored description to `""` (whatever name argument accompanies it):
name is applied only when truthy, description whenever supplied. -/
theorem C3_update_clan_empty_name_noop_empty_desc_applied
    (s : Store) (cid : String) (c : ClanDoc)
    (h : s.clans.find? (fun x => x._id == cid) = some c) :
    (∀ d : Option String,
      (((KingdomDAL.update_clan s cid (some "") d).1.clans.find?
          (fun x => x._id == cid)).map ClanDoc.clanName) = some c.clanName)
  ∧ (∀ n : Option String,
      (((KingdomDAL.update_clan s cid n (some "")).1.clans.find?
          (fun x => x._id == cid)).map ClanDoc.description) = some "") := by
  have hpc := List.find?_some h
  constructor
  · intro d
    cases d with
    | none =>
      have hval : KingdomDAL.update_clan s cid (some "") none
          = (s, .error .operationFailure) := rfl
      rw [hval, h]
      rfl
    | some x =>
      have hpf : ((KingdomDAL.setClanFields (some "") (some x) c)._id == cid) = true := hpc
      have hr := findOneAndUpdateClan_found (fun y => y._id == cid)
        (KingdomDAL.setClanFields (some "") (some x)) s.clans c h hpf
      have hstore : (KingdomDAL.update_clan s cid (some "") (some x)).1.clans
          = (findOneAndUpdateClan (fun y => y._id == cid)
              (KingdomDAL.setClanFields (some "") (some x)) s.clans).1 := rfl
      rw [hstore, hr.2]
      rfl
  · intro n
    have hpf : ((KingdomDAL.setClanFields n (some "") c)._id == cid) = true := hpc
    have hr := findOneAndUpdateClan_found (fun y => y._id == cid)
      (KingdomDAL.setClanFields n (some "")) s.clans c h hpf
    have hstore : (KingdomDAL.update_clan s cid n (some "")).1.clans
        = (findOneAndUpdateClan (fun y => y._id == cid)
            (KingdomDAL.setClanFields n (some "")) s.clans).1 := by
      unfold KingdomDAL.update_clan
      cases KingdomDAL.truthy n
      · rfl
      · rfl
    rw [hstore, hr.2]
    rfl

/-- C3 witness: on a concrete store, an empty-string name is a no-op on
the stored name while an empty-string description clears the stored
description. -/
theorem C3_witness :
    (((KingdomDAL.update_clan storeC3 "c1" (some "") (some "zz")).1.clans.find?
        (fun x => x._id == "c1")).map ClanDoc.clanName) = some clanC3.clanName
  ∧ (((KingdomDAL.update_clan storeC3 "c1" none (some "")).1.clans.find?
        (fun x => x._id == "c1")).map ClanDoc.description) = some "" :=
  ⟨(C3_update_clan_empty_name_noop_empty_desc_applied storeC3 "c1" clanC3
      (by decide)).1 (some "zz"),
   (C3_update_clan_empty_name_noop_empty_desc_applied storeC3 "c1" clanC3
      (by decide)).2 none⟩

/-- C4.  `add_armymember` on an existing clan builds the member exactly as
the claim says (fresh id, `member_of == [clan_id]`, both timestamps from
`datetime.now()`, empty defaults) and the push does modify the clan — but
the claimed return of the constructed member never happens: the `return`
statement evaluates the undefined name `ArmyMember` and raises `NameError`
after the member is already persisted. -/
theorem C4_add_armymember_persists_then_raises :
    KingdomDAL.add_armymember storeC4 "m7" ⟨"2026-02-03T04:05:06"⟩
        ⟨"2026-02-03T04:05:07"⟩ "c1" "jon" "jon@w.n" "ghost" "lord-commander"
      = ({ kingdoms := [], clans := [{ clanC4 with armyMembers := [newMemberC4] }] },
         .error (.nameError "ArmyMember")) := by
  rfl

/-- C5.  Removing a member whose identifier occurs nowhere in the
(existing) clan's embedded array reports no modification (`false`) and
leaves the store — in particular that clan's member array — unchanged. -/
theorem C5_remove_absent_member_is_noop
    (s : Store) (cid mid : String) (c : ClanDoc)
    (hc : s.clans.find? (fun x => x._id == cid) = some c)
    (hm : ∀ m ∈ c.armyMembers, (m._id == mid) = false) :
    KingdomDAL.remove_armymember s cid mid = (s, false) := by
  have hfil : c.armyMembers.filter (fun m => !(m._id == mid)) = c.armyMembers := by
    rw [List.filter_eq_self]
    intro m hmem
    simp [hm m hmem]
  have hfc : (fun x : ClanDoc =>
      { x with armyMembers := x.armyMembers.filter (fun m => !(m._id == mid)) }) c = c := by
    show ({ c with armyMembers := c.armyMembers.filter (fun m => !(m._id == mid)) } : ClanDoc) = c
    rw [hfil]
  show ({ s with clans := (updateOneClan (fun x => x._id == cid)
      (fun x => { x with armyMembers := x.armyMembers.filter (fun m => !(m._id == mid)) })
      s.clans).1 },
    ((updateOneClan (fun x => x._id == cid)
      (fun x => { x with armyMembers := x.armyMembers.filter (fun m => !(m._id == mid)) })
      s.clans).2 != 0 : Bool)) = (s, false)
  rw [updateOneClan_fixed _ _ s.clans c hc hfc]
  rfl

/-- C5 witness: removing a member id that is not in the clan's array of a
concrete store returns `false` with the store untouched. -/
theorem C5_witness :
    KingdomDAL.remove_armymember storeC5 "c1" "mX" = (storeC5, false) :=
  C5_remove_absent_member_is_noop storeC5 "c1" "mX"
    { _id := "c1", kingdomId := "k1", clanName := "Stark",
      description := "", armyMembers := [memberDocC2] }
    (by decide) (by decide)

/-- C6.  `delete_kingdom` does return `true` exactly for the removed
kingdom and leaves every Clan document unchanged — but the claim's
"orphaned clans remain independently fetchable" fails: `get_clan` raises
for every existing clan (pydantic rejects the `armyMembers` assignment;
with members present the undefined name `ArmyMember` raises first), so the
orphaned clan, though still stored, cannot be fetched. -/
theorem C6_orphan_clans_stored_but_not_fetchable :
    (KingdomDAL.delete_kingdom storeC6 "k1").2 = true
  ∧ (KingdomDAL.delete_kingdom storeC6 "k1").1.clans = storeC6.clans
  ∧ KingdomDAL.get_clan (KingdomDAL.delete_kingdom storeC6 "k1").1 "c1"
      = .error (.pydanticNoField "armyMembers") := by
  refine ⟨rfl, rfl, rfl⟩

/-- C7.  `create_clan` does insert the clan document exactly as claimed
(fresh explicit id, owning kingdom id, name, description, empty member
array) — but the claimed "returns the freshly re-read Clan" never happens:
the re-read (`get_clan`) raises during hydration, so the insert persists
and the call raises. -/
theorem C7_create_clan_inserts_then_raises :
    KingdomDAL.create_clan storeC7 "c9" "k1" "Stark" "winter is coming"
      = ({ kingdoms := storeC7.kingdoms,
           clans := [{ _id := "c9", kingdomId := "k1", clanName := "Stark",
                       description := "winter is coming", armyMembers := [] }] },
         .error (.pydanticNoField "armyMembers")) := by
  rfl

/-- C8.  `get_kingdom` on an unknown identifier does return the absence
signal (`None`, no raised fault) as claimed — but for a kingdom that owns
at least one clan the claimed "returns the kingdom with its full Clan list
embedded" fails: hydration in `list_clans` raises, so the call raises
instead of returning the kingdom. -/
theorem C8_get_kingdom_absent_none_but_hydration_raises :
    KingdomDAL.get_kingdom storeC8 "k404" = .ok none
  ∧ KingdomDAL.get_kingdom storeC8 "k1" = .error (.pydanticNoField "armyMembers") := by
  constructor <;> rfl

/-- C9.  Whenever `Member.from_doc` produces a `Member` from a stored
document, its `member_of` is the stored `memberOf` with every falsy
(empty-string) entry silently dropped — so the list presented at the
public interface can be shorter than the stored one. -/
theorem C9_member_of_drops_falsy_entries (doc : MemberDoc) (m : Member)
    (h : Member.from_doc doc = .ok m) :
    m.member_of = doc.memberOf.filter (fun s => s ≠ "") := by
  unfold Member.from_doc at h
  split at h
  · exact Except.noConfusion h
  · split at h
    · exact Except.noConfusion h
    · cases h
      rfl

/-- C9 witness: a stored document with `memberOf = ["c1", "", "c2", ""]`
maps to a `Member` whose `member_of` is `["c1", "c2"]`. -/
theorem C9_witness :
    Member.from_doc memberDocC9 = .ok memberC9
  ∧ memberC9.member_of = memberDocC9.memberOf.filter (fun s => s ≠ "") :=
  ⟨rfl, C9_member_of_drops_falsy_entries memberDocC9 memberC9 rfl⟩

/-- C10.  `add_armymember` with a clan identifier matching no Clan
document returns the absence signal (`None`) and leaves the clans
collection entirely unchanged: the `$push` runs with `upsert=False`, so no
document is ever created. -/
theorem C10_add_armymember_missing_clan_is_noop
    (s : Store) (oid : String) (t1 t2 : PyDatetime)
    (cid nickname email password rank : String)
    (h : s.clans.find? (fun c => c._id == cid) = none) :
    KingdomDAL.add_armymember s oid t1 t2 cid nickname email password rank
      = (s, .ok none) := by
  have h0 := updateOneClan_none (fun c => c._id == cid)
    (fun c => { c with armyMembers := c.armyMembers ++
      [{ _id := oid, nickname := nickname, email := email, password := password,
         rank := rank, memberOf := [cid], status := "",
         registrationDate := .dtime t1, lastLogin := .dtime t2,
         description := "", phone := "",
         imageAccess := false, infoAccess := false,
         manageAccess := false, mediaAccess := false }] })
    s.clans h
  simp only [KingdomDAL.add_armymember, h0]
  rfl

/-- C10 witness: adding a member to the unknown clan id `cX` of a concrete
store returns `None` and leaves the store unchanged. -/
theorem C10_witness :
    KingdomDAL.add_armymember storeC10 "m1" ⟨"2026-01-01T00:00:00"⟩
        ⟨"2026-01-01T00:00:00"⟩ "cX" "a" "b" "c" "d" = (storeC10, .ok none) :=
  C10_add_armymember_missing_clan_is_noop storeC10 "m1" ⟨"2026-01-01T00:00:00"⟩
    ⟨"2026-01-01T00:00:00"⟩ "cX" "a" "b" "c" "d" (by decide)

end SVCIL
